import Mathlib

/-!
Verification of the ReceiptAgent receipt-processing pipeline.

Shallow embedding of the source files:
  * `api/ai/state.py`  — run state (`ReceiptProcessingState`) and its
    per-field LangGraph reducers (`Annotated[List[str], add]` on
    `validation_errors` and `audit_notes`, overwrite elsewhere);
  * `api/ai/nodes.py`  — the stage functions (load, extract, validate,
    fraud check, finalize, error handler);
  * `api/ai/graph.py`  — the routers and the graph walk;
  * `api/tasks.py`     — the batch orchestration task.

External effects (the file system, the clock, the LLM fraud-scoring call)
are passed in as an explicit `Env`; everything else is translated from the
Python source.  Python decimals/floats are modelled as `Rat`, Python
truthiness of the optional fields is modelled explicitly.
-/

namespace ReceiptAgent

/-- A Python `datetime`-like value: calendar date plus a time-of-day
component (opaque `Nat`, `0` = midnight, as produced by
`datetime.strptime(s, "%Y-%m-%d")`).  Compared lexicographically,
as Python compares `datetime` values chronologically. -/
structure PyDateTime where
  year : Nat
  month : Nat
  day : Nat
  tod : Nat
deriving Repr, DecidableEq

/-- Chronological (lexicographic) strict order on `PyDateTime`. -/
def PyDateTime.lt (a b : PyDateTime) : Bool :=
  if a.year ≠ b.year then a.year < b.year
  else if a.month ≠ b.month then a.month < b.month
  else if a.day ≠ b.day then a.day < b.day
  else a.tod < b.tod

/-- Gregorian leap-year test, as used by Python's calendar handling. -/
def isLeapYear (y : Nat) : Bool :=
  (y % 4 == 0 && y % 100 != 0) || (y % 400 == 0)

/-- Number of days in month `m` of year `y`. -/
def daysInMonth (y m : Nat) : Nat :=
  if m == 2 then (if isLeapYear y then 29 else 28)
  else if m == 4 || m == 6 || m == 9 || m == 11 then 30
  else 31

/-- Split a character list on `'-'` (the groups between the dashes). -/
def splitOnDash : List Char → List (List Char)
  | [] => [[]]
  | c :: rest =>
    match splitOnDash rest with
    | [] => [[]]
    | g :: gs => if c = '-' then [] :: g :: gs else (c :: g) :: gs

/-- Decimal value of a nonempty digit string; `none` on a non-digit or an
empty group. -/
def digitsToNatAux : List Char → Nat → Option Nat
  | [], acc => some acc
  | c :: rest, acc =>
    if c.isDigit then digitsToNatAux rest (acc * 10 + (c.toNat - 48))
    else none

/-- Decimal value of a nonempty all-digit character list. -/
def digitsToNat? : List Char → Option Nat
  | [] => none
  | cs => digitsToNatAux cs 0

/-- `datetime.strptime(s, "%Y-%m-%d")`: split on `-`, the three parts must
be decimal digit strings — `%Y` matches exactly four digits, `%m` and `%d`
at most two — forming a valid calendar date (year at least 1, month 1–12,
day within the month).  Returns the parsed date at midnight, or `none`
when the string does not parse (Python raises `ValueError`). -/
def strptimeYmd (s : String) : Option PyDateTime :=
  match splitOnDash s.data with
  | [ys, ms, ds] =>
    match digitsToNat? ys, digitsToNat? ms, digitsToNat? ds with
    | some y, some m, some d =>
      if ys.length = 4 ∧ ms.length ≤ 2 ∧ ds.length ≤ 2 ∧ 1 ≤ y
          ∧ 1 ≤ m ∧ m ≤ 12 ∧ 1 ≤ d ∧ d ≤ daysInMonth y m then
        some ⟨y, m, d, 0⟩
      else none
    | _, _, _ => none
  | _ => none

/-- `ReceiptItem` (`state.py`): one line item of a receipt. -/
structure ReceiptItem where
  name : String
  quantity : Int
  unit_price : Rat
  total_price : Rat
deriving Repr, DecidableEq

/-- `ExtractedReceiptData` (`state.py`): structured data extracted from the
receipt image.  `Optional` fields become `Option`. -/
structure ExtractedReceiptData where
  merchant_name : Option String
  merchant_address : Option String
  transaction_date : Option String
  transaction_time : Option String
  items : List ReceiptItem
  subtotal : Option Rat
  tax_amount : Option Rat
  total_amount : Option Rat
  payment_method : Option String
  currency : String
  confidence_score : Rat
deriving Repr, DecidableEq

/-- `FraudAnalysis` (`state.py`): the shape the fraud-scoring service is
asked to return.  The fields are unconstrained, exactly as in the source:
nothing in the code validates the range of `score` or the value of
`risk_level` on a successfully parsed response. -/
structure FraudAnalysis where
  score : Int
  risk_level : String
  flags : List String
  explanation : String
  requires_manual_review : Bool
deriving Repr, DecidableEq

/-- `ReceiptProcessingState` (`state.py`): the run state threaded through
the pipeline. -/
structure ReceiptProcessingState where
  receipt_id : String
  image_path : String
  report_id : String
  image_base64 : Option String
  ocr_text : Option String
  extracted_data : Option ExtractedReceiptData
  validation_passed : Option Bool
  validation_errors : List String
  fraud_analysis : Option FraudAnalysis
  fraud_score : Int
  processing_status : String
  error_message : Option String
  audit_notes : List String
  processing_started_at : Option String
  processing_completed_at : Option String
  total_processing_time_ms : Option Int
deriving Repr, DecidableEq

/-- A partial update returned by a stage: a sparse set of field
assignments.  `none` means the key is absent from the returned dict;
`some v` assigns `v`.  The two fields annotated with the `add` reducer in
`state.py` (`validation_errors`, `audit_notes`) carry the list of entries
the stage contributes (`[]` when the key is absent — appending nothing). -/
structure StateUpdate where
  image_base64 : Option (Option String) := none
  ocr_text : Option (Option String) := none
  extracted_data : Option (Option ExtractedReceiptData) := none
  validation_passed : Option (Option Bool) := none
  validation_errors : List String := []
  fraud_analysis : Option (Option FraudAnalysis) := none
  fraud_score : Option Int := none
  processing_status : Option String := none
  error_message : Option (Option String) := none
  audit_notes : List String := []
  processing_completed_at : Option (Option String) := none
  total_processing_time_ms : Option (Option Int) := none
deriving Repr, DecidableEq

/-- The LangGraph merge step for `ReceiptProcessingState` (`state.py`):
`validation_errors` and `audit_notes` are `Annotated[List[str], add]`, so a
stage's entries are concatenated after the existing ones; every other field
present in the partial update overwrites the previous value. -/
def applyUpdate (s : ReceiptProcessingState) (u : StateUpdate) :
    ReceiptProcessingState :=
  { s with
    image_base64 := u.image_base64.getD s.image_base64
    ocr_text := u.ocr_text.getD s.ocr_text
    extracted_data := u.extracted_data.getD s.extracted_data
    validation_passed := u.validation_passed.getD s.validation_passed
    validation_errors := s.validation_errors ++ u.validation_errors
    fraud_analysis := u.fraud_analysis.getD s.fraud_analysis
    fraud_score := u.fraud_score.getD s.fraud_score
    processing_status := u.processing_status.getD s.processing_status
    error_message := u.error_message.getD s.error_message
    audit_notes := s.audit_notes ++ u.audit_notes
    processing_completed_at :=
      u.processing_completed_at.getD s.processing_completed_at
    total_processing_time_ms :=
      u.total_processing_time_ms.getD s.total_processing_time_ms }

/-- `create_initial_state` (`state.py`), with the `datetime.now().isoformat()`
timestamp supplied by the caller. -/
def create_initial_state (receipt_id image_path report_id nowIso : String) :
    ReceiptProcessingState :=
  { receipt_id := receipt_id
    image_path := image_path
    report_id := report_id
    image_base64 := none
    ocr_text := none
    extracted_data := none
    validation_passed := none
    validation_errors := []
    fraud_analysis := none
    fraud_score := 0
    processing_status := "pending"
    error_message := none
    audit_notes := []
    processing_started_at := some nowIso
    processing_completed_at := none
    total_processing_time_ms := none }

/-- `route_after_extraction` (`graph.py`). -/
def route_after_extraction (state : ReceiptProcessingState) : String :=
  if state.processing_status == "failed" then "error"
  else if state.extracted_data.isNone then "error"
  else "validate"

/-- `route_after_validation` (`graph.py`). -/
def route_after_validation (state : ReceiptProcessingState) : String :=
  if state.validation_errors.length > 3 then "needs_review"
  else "fraud_check"

/-- `route_after_fraud_check` (`graph.py`). -/
def route_after_fraud_check (state : ReceiptProcessingState) : String :=
  if state.fraud_score ≥ 70 then "flag_fraud"
  else "finalize"

/-- Python truthiness of an `Optional[str]`: `None` and `""` are falsy. -/
def pyStrTruthy : Option String → Bool
  | none => false
  | some s => s != ""

/-- Python truthiness of an `Optional[float]`: `None` and `0` are falsy. -/
def pyRatTruthy : Option Rat → Bool
  | none => false
  | some q => q != 0

/-- Python truthiness of a list: the empty list is falsy. -/
def pyListTruthy {α : Type} (l : List α) : Bool := !l.isEmpty

/-- Python's `f"{q:.2f}"` on a decimal amount: two digits after the point
(half-up at exact ties, where Python rounds half-even; the formatted
strings only appear inside audit text). -/
def formatRat2 (q : Rat) : String :=
  let c : Int := Int.floor (q * 100 + 1/2)
  let a := c.natAbs
  (if c < 0 then "-" else "") ++ toString (a / 100) ++ "."
    ++ (if a % 100 < 10 then "0" else "") ++ toString (a % 100)

/-- Python's `f"{q:.1f}"`, used for the file size in KB. -/
def formatRat1 (q : Rat) : String :=
  let c : Int := Int.floor (q * 10 + 1/2)
  let a := c.natAbs
  (if c < 0 then "-" else "") ++ toString (a / 10) ++ "." ++ toString (a % 10)

/-- Outcome of the external fraud-scoring call in `fraud_check_node`:
either the whole `try` block raises an exception with the given detail
(`str(e)`), or `llm.invoke` returns and `json.loads(response.content)`
either fails (`none`) or yields a value of the expected shape (`some`). -/
inductive LLMOutcome where
  | raised (detail : String)
  | returned (parsed : Option FraudAnalysis)
deriving Repr, DecidableEq

/-- The external world of one run: the file system, the clock, and the
fraud-scoring service. -/
structure Env where
  /-- `Path(image_path).exists()` -/
  fileExists : Bool
  /-- an exception raised while reading/encoding an existing image, if any -/
  loadError : Option String
  /-- the base64 encoding of the image file -/
  imageBase64 : String
  /-- `Path(image_path).stat().st_size / 1024` -/
  fileSizeKB : Rat
  /-- `datetime.now().strftime("%Y-%m-%d")` -/
  nowDateStr : String
  /-- `datetime.now().strftime("%H:%M")` -/
  nowTimeStr : String
  /-- `datetime.now()` as compared against the parsed transaction date -/
  now : PyDateTime
  /-- `datetime.now().isoformat()` -/
  nowIso : String
  /-- outcome of the fraud-service call -/
  fraudResp : LLMOutcome
  /-- elapsed-time computation in `finalize_node` (`none` when the
  `fromisoformat` arithmetic raises) -/
  elapsedMs : Option Int

/-- `load_image_node` (`nodes.py`). -/
def load_image_node (env : Env) (state : ReceiptProcessingState) :
    StateUpdate :=
  if !env.fileExists then
    { processing_status := some "failed"
      error_message := some (some ("Image file not found: " ++ state.image_path))
      audit_notes := ["ERROR: Image file not found"] }
  else
    match env.loadError with
    | some e =>
      { processing_status := some "failed"
        error_message := some (some e)
        audit_notes := ["ERROR loading image: " ++ e] }
    | none =>
      { image_base64 := some (some env.imageBase64)
        processing_status := some "extracting"
        audit_notes :=
          ["Image loaded successfully (" ++ formatRat1 env.fileSizeKB ++ " KB)"] }

/-- The hard-coded `mock_extracted_data` of `extract_data_node`
(`nodes.py`); the date and time strings come from `datetime.now()`. -/
def mock_extracted_data (env : Env) : ExtractedReceiptData :=
  { merchant_name := some "Sample Coffee Shop"
    merchant_address := some "123 Main Street, City"
    transaction_date := some env.nowDateStr
    transaction_time := some env.nowTimeStr
    items :=
      [ { name := "Latte", quantity := 1, unit_price := 4.50, total_price := 4.50 }
      , { name := "Muffin", quantity := 2, unit_price := 3.00, total_price := 6.00 } ]
    subtotal := some 10.50
    tax_amount := some 0.84
    total_amount := some 11.34
    payment_method := some "VISA ****1234"
    currency := "USD"
    confidence_score := 0.92 }

/-- `extract_data_node` (`nodes.py`): fails when no image data is present,
otherwise returns the mock extraction. -/
def extract_data_node (env : Env) (state : ReceiptProcessingState) :
    StateUpdate :=
  if !pyStrTruthy state.image_base64 then
    { processing_status := some "failed"
      error_message := some (some "No image data available for extraction")
      audit_notes := ["ERROR: Missing image data"] }
  else
    let d := mock_extracted_data env
    { extracted_data := some (some d)
      processing_status := some "validating"
      audit_notes :=
        [ "Extraction complete: " ++ (match d.merchant_name with
            | some s => s
            | none => "None")
        , "Total: " ++ d.currency ++ " "
            ++ formatRat2 (d.total_amount.getD 0) ] }

/-- The `errors` list built by `validate_data_node` (`nodes.py`) for a
present `extracted_data` record: the business rules in source order, every
violated rule appending its message, none short-circuiting. -/
def validationErrorsOf (now : PyDateTime) (extracted : ExtractedReceiptData) :
    List String :=
  (if !pyStrTruthy extracted.merchant_name then ["Missing merchant name"] else [])
  ++ (if !pyRatTruthy extracted.total_amount then ["Missing total amount"] else [])
  ++ (if !pyStrTruthy extracted.transaction_date then ["Missing transaction date"] else [])
  ++ (if pyRatTruthy extracted.total_amount ∧ extracted.total_amount.getD 0 < 0 then
        ["Total amount cannot be negative"] else [])
  ++ (if pyListTruthy extracted.items ∧ pyRatTruthy extracted.subtotal then
        (let calculated := extracted.items.foldl (fun a it => a + it.total_price) 0
         let st := extracted.subtotal.getD 0
         if |calculated - st| > 0.01 then
           ["Items total (" ++ formatRat2 calculated
             ++ ") doesn't match subtotal (" ++ formatRat2 st ++ ")"]
         else [])
      else [])
  ++ (if pyStrTruthy extracted.transaction_date then
        (match strptimeYmd (extracted.transaction_date.getD "") with
         | some tx_date => if PyDateTime.lt now tx_date then
             ["Transaction date is in the future"] else []
         | none => ["Invalid date format"])
      else [])
  ++ (if extracted.confidence_score < 0.5 then ["Low extraction confidence"] else [])

/-- `validate_data_node` (`nodes.py`). -/
def validate_data_node (now : PyDateTime) (state : ReceiptProcessingState) :
    StateUpdate :=
  match state.extracted_data with
  | none =>
    { validation_passed := some (some false)
      validation_errors := ["No extracted data to validate"]
      processing_status := some "needs_review" }
  | some extracted =>
    let errors := validationErrorsOf now extracted
    { validation_passed := some (some errors.isEmpty)
      validation_errors := errors
      processing_status := some "analyzing"
      audit_notes :=
        [if errors.isEmpty then "Validation passed"
         else "Validation: " ++ toString errors.length ++ " issues found"] }

/-- `fraud_check_node` (`nodes.py`): no extracted data → CRITICAL/100
fallback; exception anywhere in the `try` block → MEDIUM/50 analysis-error
fallback; response that `json.loads` cannot parse → MEDIUM/50
could-not-parse fallback; parsed response used verbatim otherwise. -/
def fraud_check_node (resp : LLMOutcome) (state : ReceiptProcessingState) :
    StateUpdate :=
  match state.extracted_data with
  | none =>
    { fraud_score := some 100
      fraud_analysis := some (some
        { score := 100, risk_level := "CRITICAL"
          flags := ["No extracted data"]
          explanation := "Cannot analyze without data"
          requires_manual_review := true })
      processing_status := some "needs_review"
      audit_notes := ["FRAUD CHECK: No data to analyze"] }
  | some _ =>
    match resp with
    | .raised detail =>
      { fraud_score := some 50
        fraud_analysis := some (some
          { score := 50, risk_level := "MEDIUM"
            flags := ["Analysis error: " ++ detail]
            explanation := "Fraud analysis failed"
            requires_manual_review := true })
        processing_status := some "needs_review"
        audit_notes := ["FRAUD CHECK ERROR: " ++ detail] }
    | .returned parsed =>
      let fraud_analysis : FraudAnalysis :=
        match parsed with
        | some fa => fa
        | none =>
          { score := 50, risk_level := "MEDIUM"
            flags := ["Could not parse AI response"]
            explanation := "Fraud analysis inconclusive"
            requires_manual_review := true }
      { fraud_analysis := some (some fraud_analysis)
        fraud_score := some fraud_analysis.score
        processing_status := some
          (if fraud_analysis.score ≥ 70 then "needs_review" else "completed")
        audit_notes :=
          [ "Fraud score: " ++ toString fraud_analysis.score ++ "/100"
          , "Risk level: " ++ fraud_analysis.risk_level ] }

/-- `finalize_node` (`nodes.py`).  The `none` branch mirrors the source's
`state.get("extracted_data", {})` default (unreachable through the graph,
which routes extraction failures to the error handler). -/
def finalize_node (env : Env) (state : ReceiptProcessingState) : StateUpdate :=
  let elapsed_ms : Option Int :=
    match state.processing_started_at with
    | none => none
    | some _ => env.elapsedMs
  match state.extracted_data with
  | some extracted =>
    { processing_completed_at := some (some env.nowIso)
      total_processing_time_ms := some elapsed_ms
      audit_notes :=
        [ "PROCESSING COMPLETE"
        , "Merchant: " ++ (match extracted.merchant_name with
            | some s => s
            | none => "None")
        , "Total: " ++ extracted.currency ++ " "
            ++ formatRat2 (extracted.total_amount.getD 0) ] }
  | none =>
    { processing_completed_at := some (some env.nowIso)
      total_processing_time_ms := some elapsed_ms
      audit_notes := ["PROCESSING COMPLETE", "Merchant: Unknown", "Total: USD 0.00"] }

/-- `flag_fraud_node` (`graph.py`).  The `none` branch mirrors the `{}`
default of `state.get("fraud_analysis", {})`. -/
def flag_fraud_node (env : Env) (state : ReceiptProcessingState) : StateUpdate :=
  match state.fraud_analysis with
  | some fraud_analysis =>
    { processing_status := some "flagged_fraud"
      processing_completed_at := some (some env.nowIso)
      audit_notes :=
        [ "FRAUD ALERT: Score " ++ toString state.fraud_score ++ "/100"
        , "Risk level: " ++ fraud_analysis.risk_level
        , "Flags: " ++ String.intercalate ", " fraud_analysis.flags ] }
  | none =>
    { processing_status := some "flagged_fraud"
      processing_completed_at := some (some env.nowIso)
      audit_notes :=
        [ "FRAUD ALERT: Score " ++ toString state.fraud_score ++ "/100"
        , "Risk level: UNKNOWN", "Flags: " ] }

/-- `needs_review_node` (`graph.py`): one header plus one indented note per
validation error. -/
def needs_review_node (env : Env) (state : ReceiptProcessingState) :
    StateUpdate :=
  { processing_status := some "needs_review"
    processing_completed_at := some (some env.nowIso)
    audit_notes :=
      ("MANUAL REVIEW REQUIRED: " ++ toString state.validation_errors.length
          ++ " validation errors")
        :: state.validation_errors.map (fun e => "  - " ++ e) }

/-- `error_handler_node` (`nodes.py`).  `state.get("error_message",
"Unknown error")`: the key is always present (set to `None` by
`create_initial_state`), so an absent message prints as Python's
`str(None)`. -/
def error_handler_node (env : Env) (state : ReceiptProcessingState) :
    StateUpdate :=
  let error := match state.error_message with
    | some e => e
    | none => "None"
  { processing_status := some "failed"
    processing_completed_at := some (some env.nowIso)
    audit_notes :=
      [ "PROCESSING FAILED"
      , "Error: " ++ error
      , "Receipt flagged for manual review" ] }

/-- One run of the compiled graph (`build_receipt_processing_graph` +
`process_receipt`, `graph.py`): the single active path
`load_image → extract_data → (validate | error)`,
`validate → (fraud_check | needs_review)`,
`fraud_check → (finalize | flag_fraud)`, each stage's partial update folded
into the run state with `applyUpdate`. -/
def runPipeline (env : Env) (receipt_id image_path report_id : String) :
    ReceiptProcessingState :=
  let s0 := create_initial_state receipt_id image_path report_id env.nowIso
  let s1 := applyUpdate s0 (load_image_node env s0)
  let s2 := applyUpdate s1 (extract_data_node env s1)
  if route_after_extraction s2 == "error" then
    applyUpdate s2 (error_handler_node env s2)
  else
    let s3 := applyUpdate s2 (validate_data_node env.now s2)
    if route_after_validation s3 == "needs_review" then
      applyUpdate s3 (needs_review_node env s3)
    else
      let s4 := applyUpdate s3 (fraud_check_node env.fraudResp s3)
      if route_after_fraud_check s4 == "flag_fraud" then
        applyUpdate s4 (flag_fraud_node env s4)
      else
        applyUpdate s4 (finalize_node env s4)

/-- The successive run states of one walk through the graph: the initial
state followed by the state after each executed stage, ending in the
terminal state (`runPipeline` is its last element). -/
def runTrace (env : Env) (receipt_id image_path report_id : String) :
    List ReceiptProcessingState :=
  let s0 := create_initial_state receipt_id image_path report_id env.nowIso
  let s1 := applyUpdate s0 (load_image_node env s0)
  let s2 := applyUpdate s1 (extract_data_node env s1)
  if route_after_extraction s2 == "error" then
    [s0, s1, s2, applyUpdate s2 (error_handler_node env s2)]
  else
    let s3 := applyUpdate s2 (validate_data_node env.now s2)
    if route_after_validation s3 == "needs_review" then
      [s0, s1, s2, s3, applyUpdate s3 (needs_review_node env s3)]
    else
      let s4 := applyUpdate s3 (fraud_check_node env.fraudResp s3)
      if route_after_fraud_check s4 == "flag_fraud" then
        [s0, s1, s2, s3, s4, applyUpdate s4 (flag_fraud_node env s4)]
      else
        [s0, s1, s2, s3, s4, applyUpdate s4 (finalize_node env s4)]

/-- One entry of the `results` list built by `batch_process_receipts_task`
(`tasks.py`).  The task's returned payload is kept opaque. -/
structure BatchItemResult where
  receipt_id : String
  status : String
  result : Option String := none
  error : Option String := none
deriving Repr, DecidableEq

/-- The dict returned by `batch_process_receipts_task` (`tasks.py`). -/
structure BatchResult where
  total_processed : Nat
  successful : Nat
  failed : Nat
  results : List BatchItemResult
deriving Repr, DecidableEq

/-- `batch_process_receipts_task` (`tasks.py`): each receipt id processed
in input order through `process_receipt_task.apply(...)` / `.get()`
(modelled by `process`, returning the task payload or the detail of the
exception that `.get()` re-raises); the per-item `try/except` isolates
failures, and the counts are `sum(1 for r in results if ...)`. -/
def batch_process_receipts_task (process : String → Except String String)
    (receipt_ids : List String) : BatchResult :=
  let results := receipt_ids.map (fun receipt_id =>
    match process receipt_id with
    | .ok r =>
      { receipt_id := receipt_id, status := "success", result := some r }
    | .error e =>
      { receipt_id := receipt_id, status := "failed", error := some e })
  { total_processed := receipt_ids.length
    successful := results.countP (fun r => r.status == "success")
    failed := results.countP (fun r => r.status == "failed")
    results := results }

/-! ### Concrete inputs used to instantiate the theorems -/

/-- A fresh run state, as `create_initial_state` builds it. -/
def exampleState : ReceiptProcessingState :=
  create_initial_state "r1" "/tmp/receipt.png" "rep1" "2026-10-12T09:00:00"

/-- A typical sparse stage update. -/
def exampleUpdate : StateUpdate :=
  { processing_status := some "extracting", fraud_score := some 10
    validation_errors := ["e1"], audit_notes := ["n1"] }

/-- A run state holding the given validation errors. -/
def stateWithErrors (es : List String) : ReceiptProcessingState :=
  { exampleState with validation_errors := es }

/-- A run state holding the given fraud score. -/
def stateWithScore (n : Int) : ReceiptProcessingState :=
  { exampleState with fraud_score := n }

/-- A reference clock value. -/
def exampleNow : PyDateTime := ⟨2026, 6, 1, 0⟩

/-- An extracted record with no merchant, no total, a valid past date, no
items, no subtotal, and high confidence (the spec's Scenario B shape). -/
def scenarioBRecord : ExtractedReceiptData :=
  { merchant_name := none, merchant_address := none
    transaction_date := some "2026-01-15", transaction_time := none
    items := [], subtotal := none, tax_amount := none, total_amount := none
    payment_method := none, currency := "USD", confidence_score := 0.9 }

/-- The same record with a confidence score below the `0.5` threshold. -/
def lowConfidenceRecord : ExtractedReceiptData :=
  { scenarioBRecord with confidence_score := 0 }

/-- An extracted record whose total amount is exactly `0`. -/
def zeroTotalRecord : ExtractedReceiptData :=
  { merchant_name := some "Shop", merchant_address := none
    transaction_date := some "2026-01-15", transaction_time := none
    items := [], subtotal := none, tax_amount := none, total_amount := some 0
    payment_method := none, currency := "USD", confidence_score := 1 }

/-- A run state carrying the given extracted record. -/
def stateWithExtracted (e : ExtractedReceiptData) : ReceiptProcessingState :=
  { exampleState with extracted_data := some e }

/-- The four risk levels the fraud-scoring service is instructed to use. -/
def riskLevels : List String := ["LOW", "MEDIUM", "HIGH", "CRITICAL"]

/-- The claimed run-state invariant: `fraud_score ∈ [0,100]` and, when set,
`fraud_analysis.risk_level` is one of the four levels. -/
def scoreInv (s : ReceiptProcessingState) : Prop :=
  0 ≤ s.fraud_score ∧ s.fraud_score ≤ 100 ∧
  ∀ fa, s.fraud_analysis = some fa → fa.risk_level ∈ riskLevels

/-- A stage update preserves `scoreInv` when any fraud score it assigns is
in range and any fraud analysis it assigns has a known risk level. -/
def updateScoreOk (u : StateUpdate) : Prop :=
  (∀ v, u.fraud_score = some v → 0 ≤ v ∧ v ≤ 100) ∧
  (∀ fa, u.fraud_analysis = some (some fa) → fa.risk_level ∈ riskLevels)

/-- A syntactically well-formed but out-of-contract service response:
score 150, unknown risk level.  Nothing in the parsing path rejects it. -/
def overflowFA : FraudAnalysis :=
  { score := 150, risk_level := "BOGUS", flags := [], explanation := ""
    requires_manual_review := false }

/-- A run environment whose fraud service returns `overflowFA`. -/
def overflowEnv : Env :=
  { fileExists := true, loadError := none, imageBase64 := "aW1n"
    fileSizeKB := 12, nowDateStr := "2026-10-12", nowTimeStr := "10:30"
    now := ⟨2026, 10, 12, 999⟩, nowIso := "2026-10-12T10:30:00"
    fraudResp := .returned (some overflowFA), elapsedMs := some 5 }

/-- A run environment whose image path resolves to no file. -/
def missingFileEnv : Env :=
  { fileExists := false, loadError := none, imageBase64 := ""
    fileSizeKB := 0, nowDateStr := "2026-10-12", nowTimeStr := "09:00"
    now := ⟨2026, 10, 12, 0⟩, nowIso := "2026-10-12T09:00:00"
    fraudResp := .returned none, elapsedMs := none }

end ReceiptAgent

namespace ReceiptAgent

/-! ### Theorems -/

/-- C1: for every stage update folded into the run state,
`validation_errors` and `audit_notes` are combined by append (new entries
after the existing ones, order preserved), so their lengths never decrease;
every other field present in the partial update overwrites the previous
value. -/
theorem applyUpdate_append_logs_overwrite_rest
    (s : ReceiptProcessingState) (u : StateUpdate) :
    (applyUpdate s u).validation_errors = s.validation_errors ++ u.validation_errors ∧
    (applyUpdate s u).audit_notes = s.audit_notes ++ u.audit_notes ∧
    s.validation_errors.length ≤ (applyUpdate s u).validation_errors.length ∧
    s.audit_notes.length ≤ (applyUpdate s u).audit_notes.length ∧
    (∀ v, u.image_base64 = some v → (applyUpdate s u).image_base64 = v) ∧
    (∀ v, u.ocr_text = some v → (applyUpdate s u).ocr_text = v) ∧
    (∀ v, u.extracted_data = some v → (applyUpdate s u).extracted_data = v) ∧
    (∀ v, u.validation_passed = some v → (applyUpdate s u).validation_passed = v) ∧
    (∀ v, u.fraud_analysis = some v → (applyUpdate s u).fraud_analysis = v) ∧
    (∀ v, u.fraud_score = some v → (applyUpdate s u).fraud_score = v) ∧
    (∀ v, u.processing_status = some v → (applyUpdate s u).processing_status = v) ∧
    (∀ v, u.error_message = some v → (applyUpdate s u).error_message = v) ∧
    (∀ v, u.processing_completed_at = some v →
      (applyUpdate s u).processing_completed_at = v) ∧
    (∀ v, u.total_processing_time_ms = some v →
      (applyUpdate s u).total_processing_time_ms = v) := by
  refine ⟨rfl, rfl, ?_, ?_, ?_, ?_, ?_, ?_, ?_, ?_, ?_, ?_, ?_, ?_⟩
  · simp [applyUpdate]
  · simp [applyUpdate]
  all_goals intro v h
  all_goals simp [applyUpdate, h]

/-- Witness for C1 at a concrete state and update. -/
theorem applyUpdate_append_logs_overwrite_rest_instance :
    (applyUpdate exampleState exampleUpdate).fraud_score = 10 ∧
    (applyUpdate exampleState exampleUpdate).audit_notes =
      exampleState.audit_notes ++ ["n1"] := by
  obtain ⟨h1, h2, h3, h4, h5, h6, h7, h8, h9, h10, h11, h12, h13, h14⟩ :=
    applyUpdate_append_logs_overwrite_rest exampleState exampleUpdate
  exact ⟨h10 10 rfl, h2⟩

/-- C2: after validation the router picks `needs_review` exactly when there
are strictly more than 3 validation errors, and `fraud_check` otherwise;
3 errors route to `fraud_check`, 4 to `needs_review`. -/
theorem route_after_validation_threshold (s : ReceiptProcessingState) :
    (route_after_validation s = "needs_review" ↔
      3 < s.validation_errors.length) ∧
    (route_after_validation s = "fraud_check" ↔
      s.validation_errors.length ≤ 3) ∧
    (s.validation_errors.length = 3 → route_after_validation s = "fraud_check") ∧
    (s.validation_errors.length = 4 → route_after_validation s = "needs_review") := by
  unfold route_after_validation
  split_ifs with h <;> refine ⟨?_, ?_, ?_, ?_⟩ <;> simp_all <;> omega

/-- Witness for C2 at the 3- and 4-error boundary states. -/
theorem route_after_validation_threshold_instance :
    route_after_validation (stateWithErrors ["a", "b", "c"]) = "fraud_check" ∧
    route_after_validation (stateWithErrors ["a", "b", "c", "d"]) = "needs_review" :=
  ⟨(route_after_validation_threshold _).2.2.1 rfl,
   (route_after_validation_threshold _).2.2.2 rfl⟩

/-- C3: after the fraud check the router picks `flag_fraud` exactly when
the fraud score is at least 70, and `finalize` otherwise; score 69 routes
to `finalize`, score 70 to `flag_fraud`. -/
theorem route_after_fraud_check_threshold (s : ReceiptProcessingState) :
    (route_after_fraud_check s = "flag_fraud" ↔ 70 ≤ s.fraud_score) ∧
    (route_after_fraud_check s = "finalize" ↔ s.fraud_score < 70) ∧
    (s.fraud_score = 69 → route_after_fraud_check s = "finalize") ∧
    (s.fraud_score = 70 → route_after_fraud_check s = "flag_fraud") := by
  unfold route_after_fraud_check
  split_ifs with h <;> refine ⟨?_, ?_, ?_, ?_⟩ <;> simp_all <;> omega

/-- Witness for C3 at the 69 and 70 boundary states. -/
theorem route_after_fraud_check_threshold_instance :
    route_after_fraud_check (stateWithScore 69) = "finalize" ∧
    route_after_fraud_check (stateWithScore 70) = "flag_fraud" :=
  ⟨(route_after_fraud_check_threshold _).2.2.1 rfl,
   (route_after_fraud_check_threshold _).2.2.2 rfl⟩

/-- C4: `fraud_check_node` never propagates a failure: with no extracted
data it synthesizes the CRITICAL/100 analysis and status `needs_review`;
with a response that does not parse as JSON it synthesizes the MEDIUM/50
could-not-parse analysis; with any exception from the external call it
synthesizes the MEDIUM/50 analysis whose flag is "Analysis error: "
followed by the exception detail, always with
`requires_manual_review = true`. -/
theorem fraud_check_node_fallbacks (resp : LLMOutcome)
    (s : ReceiptProcessingState) :
    (s.extracted_data = none →
      fraud_check_node resp s =
        { fraud_score := some 100
          fraud_analysis := some (some
            { score := 100, risk_level := "CRITICAL"
              flags := ["No extracted data"]
              explanation := "Cannot analyze without data"
              requires_manual_review := true })
          processing_status := some "needs_review"
          audit_notes := ["FRAUD CHECK: No data to analyze"] }) ∧
    (∀ e, s.extracted_data = some e → resp = .returned none →
      fraud_check_node resp s =
        { fraud_analysis := some (some
            { score := 50, risk_level := "MEDIUM"
              flags := ["Could not parse AI response"]
              explanation := "Fraud analysis inconclusive"
              requires_manual_review := true })
          fraud_score := some 50
          processing_status := some "completed"
          audit_notes := ["Fraud score: 50/100", "Risk level: MEDIUM"] }) ∧
    (∀ e d, s.extracted_data = some e → resp = .raised d →
      fraud_check_node resp s =
        { fraud_score := some 50
          fraud_analysis := some (some
            { score := 50, risk_level := "MEDIUM"
              flags := ["Analysis error: " ++ d]
              explanation := "Fraud analysis failed"
              requires_manual_review := true })
          processing_status := some "needs_review"
          audit_notes := ["FRAUD CHECK ERROR: " ++ d] }) := by
  refine ⟨fun h => ?_, fun e he hr => ?_, fun e d he hr => ?_⟩
  · simp [fraud_check_node, h]
  · subst hr; simp [fraud_check_node, he]; decide
  · subst hr; simp [fraud_check_node, he]

/-- Witness for C4: the no-data fallback at a fresh state. -/
theorem fraud_check_node_fallbacks_instance :
    fraud_check_node (.returned none) exampleState =
      { fraud_score := some 100
        fraud_analysis := some (some
          { score := 100, risk_level := "CRITICAL"
            flags := ["No extracted data"]
            explanation := "Cannot analyze without data"
            requires_manual_review := true })
        processing_status := some "needs_review"
        audit_notes := ["FRAUD CHECK: No data to analyze"] } :=
  (fraud_check_node_fallbacks _ _).1 rfl

/-- C9: `validate_data_node` is a deterministic function of the extracted
record (and the current time): two invocations on states carrying the same
`extracted_data` yield the identical ordered error list. -/
theorem validate_data_deterministic (now : PyDateTime)
    (s1 s2 : ReceiptProcessingState)
    (h : s1.extracted_data = s2.extracted_data) :
    (validate_data_node now s1).validation_errors =
      (validate_data_node now s2).validation_errors := by
  unfold validate_data_node
  rw [h]

/-- Witness for C9: two states sharing the same extracted record. -/
theorem validate_data_deterministic_instance :
    (validate_data_node exampleNow exampleState).validation_errors =
      (validate_data_node exampleNow (stateWithScore 70)).validation_errors :=
  validate_data_deterministic exampleNow _ _ rfl

/-- The formatted items-total mismatch message always starts with
"Items total (" and is strictly longer than the negative-amount message, so
the two can never coincide. -/
theorem items_total_note_ne_negative (x y : String) :
    "Items total (" ++ x ++ ") doesn't match subtotal (" ++ y ++ ")" ≠
      "Total amount cannot be negative" := by
  intro h
  have hl := congrArg String.length h
  simp only [String.length_append] at hl
  have h1 : ("Items total (" : String).length = 13 := by decide
  have h2 : (") doesn't match subtotal (" : String).length = 26 := by decide
  have h3 : (")" : String).length = 1 := by decide
  have h4 : ("Total amount cannot be negative" : String).length = 31 := by decide
  omega

/-- Symmetric orientation of `items_total_note_ne_negative`. -/
theorem negative_ne_items_total_note (x y : String) :
    "Total amount cannot be negative" ≠
      "Items total (" ++ x ++ ") doesn't match subtotal (" ++ y ++ ")" :=
  (items_total_note_ne_negative x y).symm

/-- C10: a record whose `total_amount` is exactly `0` is validated as if
the total were absent — "Missing total amount" is appended (Python
truthiness treats `0` like `None`) — and the negative-amount rule never
fires for it, so "Total amount cannot be negative" is not among the
errors. -/
theorem zero_total_missing_not_negative (now : PyDateTime)
    (s : ReceiptProcessingState) (e : ExtractedReceiptData)
    (hs : s.extracted_data = some e) (h0 : e.total_amount = some 0) :
    "Missing total amount" ∈ (validate_data_node now s).validation_errors ∧
    "Total amount cannot be negative" ∉
      (validate_data_node now s).validation_errors := by
  unfold validate_data_node
  rw [hs]
  simp only [validationErrorsOf, h0]
  have ht : pyRatTruthy (some (0 : Rat)) = false := by simp [pyRatTruthy]
  constructor
  · simp [ht]
  · intro hmem
    rcases List.mem_append.mp hmem with hmem | h
    case inr => revert h; split <;> simp
    rcases List.mem_append.mp hmem with hmem | h
    case inr => revert h; split <;> (try split) <;> (try split) <;> simp
    rcases List.mem_append.mp hmem with hmem | h
    case inr => revert h; split <;> (try split) <;>
      simp [negative_ne_items_total_note]
    rcases List.mem_append.mp hmem with hmem | h
    case inr => revert h; split <;> simp_all [pyRatTruthy]
    rcases List.mem_append.mp hmem with hmem | h
    case inr => revert h; split <;> simp
    rcases List.mem_append.mp hmem with h | h
    case inr => revert h; split <;> simp
    revert h; split <;> simp

/-- Witness for C10 at a concrete zero-total record. -/
theorem zero_total_missing_not_negative_instance :
    "Missing total amount" ∈
      (validate_data_node exampleNow
        (stateWithExtracted zeroTotalRecord)).validation_errors ∧
    "Total amount cannot be negative" ∉
      (validate_data_node exampleNow
        (stateWithExtracted zeroTotalRecord)).validation_errors :=
  zero_total_missing_not_negative exampleNow _ zeroTotalRecord rfl rfl

/-- Counterexample to C6 as stated: `lowConfidenceRecord` satisfies every
hypothesis of the claim (no merchant, no total, a present parseable
non-future date, no items, no subtotal), yet ValidateData produces three
errors, not two — the claim overlooks the low-confidence rule. -/
theorem scenarioB_low_confidence_counterexample :
    lowConfidenceRecord.merchant_name = none ∧
    lowConfidenceRecord.total_amount = none ∧
    lowConfidenceRecord.transaction_date = some "2026-01-15" ∧
    strptimeYmd "2026-01-15" = some ⟨2026, 1, 15, 0⟩ ∧
    PyDateTime.lt exampleNow ⟨2026, 1, 15, 0⟩ = false ∧
    lowConfidenceRecord.items = [] ∧
    lowConfidenceRecord.subtotal = none ∧
    (validate_data_node exampleNow
        (stateWithExtracted lowConfidenceRecord)).validation_errors =
      ["Missing merchant name", "Missing total amount",
        "Low extraction confidence"] ∧
    (validate_data_node exampleNow
        (stateWithExtracted lowConfidenceRecord)).validation_errors.length ≠ 2 := by
  have hp : strptimeYmd "2026-01-15" = some ⟨2026, 1, 15, 0⟩ := by decide
  have hlt : PyDateTime.lt exampleNow ⟨2026, 1, 15, 0⟩ = false := by decide
  have hc : ((0 : Rat) < 0.5) := by norm_num
  have hmain : (validate_data_node exampleNow
      (stateWithExtracted lowConfidenceRecord)).validation_errors =
      ["Missing merchant name", "Missing total amount",
        "Low extraction confidence"] := by
    simp [validate_data_node, stateWithExtracted, exampleState,
      create_initial_state, lowConfidenceRecord, scenarioBRecord,
      validationErrorsOf, pyStrTruthy, pyRatTruthy, pyListTruthy, hp, hlt, hc]
  refine ⟨rfl, rfl, rfl, hp, hlt, rfl, rfl, hmain, ?_⟩
  rw [hmain]; decide

/-- C6 (amended): under the claim's hypotheses plus confidence score at
least `0.5`, ValidateData produces exactly the two errors
"Missing merchant name" then "Missing total amount", in that order. -/
theorem validate_scenarioB_exactly_two (now : PyDateTime)
    (s : ReceiptProcessingState) (e : ExtractedReceiptData)
    (ds : String) (d : PyDateTime)
    (hs : s.extracted_data = some e)
    (hm : e.merchant_name = none) (hta : e.total_amount = none)
    (hd : e.transaction_date = some ds) (hp : strptimeYmd ds = some d)
    (hfut : PyDateTime.lt now d = false)
    (hi : e.items = []) (hsub : e.subtotal = none)
    (hc : ¬ e.confidence_score < 0.5) :
    (validate_data_node now s).validation_errors =
      ["Missing merchant name", "Missing total amount"] := by
  have hne : ds ≠ "" := by
    intro h
    rw [h] at hp
    have hnone : strptimeYmd "" = none := by decide
    rw [hnone] at hp
    exact Option.noConfusion hp
  have hbne : (ds != "") = true := bne_iff_ne.mpr hne
  unfold validate_data_node
  rw [hs]
  simp [validationErrorsOf, hm, hta, hd, hp, hfut, hi, hsub, hc,
    pyStrTruthy, pyRatTruthy, pyListTruthy, hbne]

/-- Witness for the amended C6 at the concrete Scenario-B record. -/
theorem validate_scenarioB_exactly_two_instance :
    (validate_data_node exampleNow
        (stateWithExtracted scenarioBRecord)).validation_errors =
      ["Missing merchant name", "Missing total amount"] :=
  validate_scenarioB_exactly_two exampleNow _ scenarioBRecord "2026-01-15"
    ⟨2026, 1, 15, 0⟩ rfl rfl rfl rfl (by decide) (by decide) rfl rfl
    (by norm_num [scenarioBRecord])

/-- C8: the batch task processes every id of the input list in order
(`results` carries the ids in input order, one entry per id), an exception
in one item never aborts the batch, `total_processed` is the input length,
`successful + failed = total_processed`; in particular a batch of three
ids where the second raises yields totals 3/2/1 with three results. -/
theorem batch_process_spec (process : String → Except String String)
    (ids : List String) :
    (batch_process_receipts_task process ids).total_processed = ids.length ∧
    (batch_process_receipts_task process ids).successful +
      (batch_process_receipts_task process ids).failed = ids.length ∧
    (batch_process_receipts_task process ids).results.length = ids.length ∧
    ((batch_process_receipts_task process ids).results.map
      (fun r => r.receipt_id)) = ids ∧
    (∀ (p3 : String → Except String String) (a b c ra rc eb : String),
      p3 a = .ok ra → p3 b = .error eb → p3 c = .ok rc →
      batch_process_receipts_task p3 [a, b, c] =
        { total_processed := 3, successful := 2, failed := 1
          results :=
            [ { receipt_id := a, status := "success", result := some ra }
            , { receipt_id := b, status := "failed", error := some eb }
            , { receipt_id := c, status := "success", result := some rc } ] }) := by
  refine ⟨rfl, ?_, ?_, ?_, ?_⟩
  · induction ids with
    | nil => rfl
    | cons x xs ih =>
      cases hx : process x <;>
        simp [batch_process_receipts_task, hx, List.countP_cons] at ih ⊢ <;>
        omega
  · simp [batch_process_receipts_task]
  · induction ids with
    | nil => rfl
    | cons x xs ih =>
      cases hx : process x <;>
        simp [batch_process_receipts_task, hx] at ih ⊢ <;>
        exact ih
  · intro p3 a b c ra rc eb ha hb hc
    simp [batch_process_receipts_task, ha, hb, hc, List.countP_cons]

/-- Witness for C8: a concrete batch of three ids whose second item
raises. -/
theorem batch_process_spec_instance :
    batch_process_receipts_task
        (fun id => if id = "b" then .error "boom" else .ok "done")
        ["a", "b", "c"] =
      { total_processed := 3, successful := 2, failed := 1
        results :=
          [ { receipt_id := "a", status := "success", result := some "done" }
          , { receipt_id := "b", status := "failed", error := some "boom" }
          , { receipt_id := "c", status := "success", result := some "done" } ] } :=
  (batch_process_spec (fun _ => Except.ok "") ["a", "b", "c"]).2.2.2.2 _
    "a" "b" "c" "done" "done" "boom" (by simp) (by simp) (by simp)

/-- C7: when the image path resolves to no existing file, the run
terminates with status `failed`, its audit notes contain an entry
containing the substring "not found", and `extracted_data` is never set. -/
theorem missing_image_terminal_failure (env : Env) (r i p : String)
    (h : env.fileExists = false) :
    (runPipeline env r i p).processing_status = "failed" ∧
    (∃ note ∈ (runPipeline env r i p).audit_notes,
      ∃ pre post, note = pre ++ "not found" ++ post) ∧
    (runPipeline env r i p).extracted_data = none := by
  have hrun : runPipeline env r i p =
      { receipt_id := r, image_path := i, report_id := p
        image_base64 := none, ocr_text := none, extracted_data := none
        validation_passed := none, validation_errors := []
        fraud_analysis := none, fraud_score := 0
        processing_status := "failed"
        error_message := some "No image data available for extraction"
        audit_notes :=
          [ "ERROR: Image file not found", "ERROR: Missing image data"
          , "PROCESSING FAILED"
          , "Error: No image data available for extraction"
          , "Receipt flagged for manual review" ]
        processing_started_at := some env.nowIso
        processing_completed_at := some env.nowIso
        total_processing_time_ms := none } := by
    simp [runPipeline, create_initial_state, load_image_node, h,
      extract_data_node, applyUpdate, pyStrTruthy, route_after_extraction,
      error_handler_node]
  refine ⟨by rw [hrun], ?_, by rw [hrun]⟩
  refine ⟨"ERROR: Image file not found", by rw [hrun]; simp,
    "ERROR: Image file ", "", by decide⟩

/-- Witness for C7 at a concrete environment with no image file. -/
theorem missing_image_terminal_failure_instance :
    (runPipeline missingFileEnv "r1" "/img/a.png" "rep1").processing_status =
      "failed" ∧
    (∃ note ∈ (runPipeline missingFileEnv "r1" "/img/a.png" "rep1").audit_notes,
      ∃ pre post, note = pre ++ "not found" ++ post) ∧
    (runPipeline missingFileEnv "r1" "/img/a.png" "rep1").extracted_data =
      none :=
  missing_image_terminal_failure missingFileEnv "r1" "/img/a.png" "rep1" rfl

/-- Folding an update that keeps the fraud fields in range preserves the
fraud invariant. -/
theorem applyUpdate_scoreInv {s : ReceiptProcessingState} {u : StateUpdate}
    (hs : scoreInv s) (hu : updateScoreOk u) : scoreInv (applyUpdate s u) := by
  obtain ⟨h0, h1, h2⟩ := hs
  obtain ⟨hu1, hu2⟩ := hu
  refine ⟨?_, ?_, ?_⟩
  · rcases hsc : u.fraud_score with _ | v
    · simpa [applyUpdate, hsc] using h0
    · simpa [applyUpdate, hsc] using (hu1 v hsc).1
  · rcases hsc : u.fraud_score with _ | v
    · simpa [applyUpdate, hsc] using h1
    · simpa [applyUpdate, hsc] using (hu1 v hsc).2
  · intro fa hfa
    rcases hfa2 : u.fraud_analysis with _ | ofa
    · exact h2 fa (by simpa [applyUpdate, hfa2] using hfa)
    · rcases ofa with _ | fa2
      · simp [applyUpdate, hfa2] at hfa
      · have hr := hu2 fa2 hfa2
        have : fa2 = fa := by simpa [applyUpdate, hfa2] using hfa
        exact this ▸ hr

/-- An update that assigns neither fraud field is vacuously in range. -/
theorem updateScoreOk_of_untouched {u : StateUpdate}
    (h1 : u.fraud_score = none) (h2 : u.fraud_analysis = none) :
    updateScoreOk u := by
  constructor <;> intro x hx
  · rw [h1] at hx; exact Option.noConfusion hx
  · rw [h2] at hx; exact Option.noConfusion hx

/-- `load_image_node` never assigns the fraud fields. -/
theorem load_image_node_scoreOk (env : Env) (s : ReceiptProcessingState) :
    updateScoreOk (load_image_node env s) := by
  apply updateScoreOk_of_untouched <;>
    (unfold load_image_node; split <;> (try split) <;> rfl)

/-- `extract_data_node` never assigns the fraud fields. -/
theorem extract_data_node_scoreOk (env : Env) (s : ReceiptProcessingState) :
    updateScoreOk (extract_data_node env s) := by
  apply updateScoreOk_of_untouched <;>
    (unfold extract_data_node; split <;> rfl)

/-- `validate_data_node` never assigns the fraud fields. -/
theorem validate_data_node_scoreOk (now : PyDateTime)
    (s : ReceiptProcessingState) :
    updateScoreOk (validate_data_node now s) := by
  apply updateScoreOk_of_untouched <;>
    (unfold validate_data_node; rcases s.extracted_data with _ | e <;> rfl)

/-- `error_handler_node` never assigns the fraud fields. -/
theorem error_handler_node_scoreOk (env : Env) (s : ReceiptProcessingState) :
    updateScoreOk (error_handler_node env s) := by
  apply updateScoreOk_of_untouched <;> rfl

/-- `needs_review_node` never assigns the fraud fields. -/
theorem needs_review_node_scoreOk (env : Env) (s : ReceiptProcessingState) :
    updateScoreOk (needs_review_node env s) := by
  apply updateScoreOk_of_untouched <;> rfl

/-- `flag_fraud_node` never assigns the fraud fields. -/
theorem flag_fraud_node_scoreOk (env : Env) (s : ReceiptProcessingState) :
    updateScoreOk (flag_fraud_node env s) := by
  apply updateScoreOk_of_untouched <;>
    (unfold flag_fraud_node; rcases s.fraud_analysis with _ | fa <;> rfl)

/-- `finalize_node` never assigns the fraud fields. -/
theorem finalize_node_scoreOk (env : Env) (s : ReceiptProcessingState) :
    updateScoreOk (finalize_node env s) := by
  apply updateScoreOk_of_untouched <;>
    (unfold finalize_node; rcases s.extracted_data with _ | e <;> rfl)

/-- Every fallback analysis `fraud_check_node` synthesizes is in range;
responses copied verbatim are in range when the response is. -/
theorem fraud_check_node_scoreOk (resp : LLMOutcome)
    (s : ReceiptProcessingState)
    (hresp : ∀ fa, resp = .returned (some fa) →
      0 ≤ fa.score ∧ fa.score ≤ 100 ∧ fa.risk_level ∈ riskLevels) :
    updateScoreOk (fraud_check_node resp s) := by
  unfold fraud_check_node
  rcases s.extracted_data with _ | e
  · constructor <;> intro x hx <;> simp at hx <;> rw [← hx] <;>
      simp [riskLevels]
  · rcases resp with d | parsed
    · constructor <;> intro x hx <;> simp at hx <;> rw [← hx] <;>
        simp [riskLevels]
    · rcases parsed with _ | fa
      · constructor <;> intro x hx <;> simp at hx <;> rw [← hx] <;>
          simp [riskLevels]
      · have h := hresp fa rfl
        constructor <;> intro x hx <;> simp at hx <;> rw [← hx]
        · exact ⟨h.1, h.2.1⟩
        · exact h.2.2

/-- C5 (amended): whenever every successfully parsed service response has
a score in `[0,100]` and a known risk level — in particular in all the
defensive-fallback cases — every state reached during a run satisfies the
invariant: `fraud_score ∈ [0,100]` and, when `fraud_analysis` is set, its
`risk_level` is one of LOW, MEDIUM, HIGH, CRITICAL. -/
theorem fraud_invariant_of_wellformed_responses (env : Env) (r i p : String)
    (hresp : ∀ fa, env.fraudResp = .returned (some fa) →
      0 ≤ fa.score ∧ fa.score ≤ 100 ∧ fa.risk_level ∈ riskLevels) :
    ∀ s ∈ runTrace env r i p, scoreInv s := by
  intro s hs
  simp only [runTrace] at hs
  set s0 := create_initial_state r i p env.nowIso with hs0
  set s1 := applyUpdate s0 (load_image_node env s0) with hs1
  set s2 := applyUpdate s1 (extract_data_node env s1) with hs2
  set s3 := applyUpdate s2 (validate_data_node env.now s2) with hs3
  set s4 := applyUpdate s3 (fraud_check_node env.fraudResp s3) with hs4
  have I0 : scoreInv s0 := by
    rw [hs0]; refine ⟨?_, ?_, ?_⟩ <;> simp [create_initial_state]
  have I1 : scoreInv s1 := by
    rw [hs1]; exact applyUpdate_scoreInv I0 (load_image_node_scoreOk env s0)
  have I2 : scoreInv s2 := by
    rw [hs2]; exact applyUpdate_scoreInv I1 (extract_data_node_scoreOk env s1)
  have I3 : scoreInv s3 := by
    rw [hs3]
    exact applyUpdate_scoreInv I2 (validate_data_node_scoreOk env.now s2)
  have I4 : scoreInv s4 := by
    rw [hs4]
    exact applyUpdate_scoreInv I3
      (fraud_check_node_scoreOk env.fraudResp s3 hresp)
  split at hs
  · simp only [List.mem_cons, List.not_mem_nil, or_false] at hs
    rcases hs with rfl | rfl | rfl | rfl
    · exact I0
    · exact I1
    · exact I2
    · exact applyUpdate_scoreInv I2 (error_handler_node_scoreOk env s2)
  · split at hs
    · simp only [List.mem_cons, List.not_mem_nil, or_false] at hs
      rcases hs with rfl | rfl | rfl | rfl | rfl
      · exact I0
      · exact I1
      · exact I2
      · exact I3
      · exact applyUpdate_scoreInv I3 (needs_review_node_scoreOk env s3)
    · split at hs
      · simp only [List.mem_cons, List.not_mem_nil, or_false] at hs
        rcases hs with rfl | rfl | rfl | rfl | rfl | rfl
        · exact I0
        · exact I1
        · exact I2
        · exact I3
        · exact I4
        · exact applyUpdate_scoreInv I4 (flag_fraud_node_scoreOk env s4)
      · simp only [List.mem_cons, List.not_mem_nil, or_false] at hs
        rcases hs with rfl | rfl | rfl | rfl | rfl | rfl
        · exact I0
        · exact I1
        · exact I2
        · exact I3
        · exact I4
        · exact applyUpdate_scoreInv I4 (finalize_node_scoreOk env s4)

/-- Witness for the amended C5 on a concrete run. -/
theorem fraud_invariant_of_wellformed_responses_instance :
    scoreInv (create_initial_state "r1" "img.png" "rep1"
      missingFileEnv.nowIso) := by
  have h := fraud_invariant_of_wellformed_responses missingFileEnv
    "r1" "img.png" "rep1" (fun fa hfa => absurd hfa (by simp [missingFileEnv]))
  exact h _ (by
    simp [runTrace, create_initial_state, load_image_node, extract_data_node,
      applyUpdate, route_after_extraction, pyStrTruthy, missingFileEnv])

/-- Counterexample to C5 as stated: the fraud service may return any
parseable payload, and the code copies it verbatim — a response with score
150 and risk level "BOGUS" reaches the terminal run state unclamped. -/
theorem fraud_score_escapes_range :
    (runPipeline overflowEnv "r1" "img.png" "rep1").fraud_score = 150 ∧
    ¬((runPipeline overflowEnv "r1" "img.png" "rep1").fraud_score ≤ 100) ∧
    (runPipeline overflowEnv "r1" "img.png" "rep1").fraud_analysis =
      some overflowFA ∧
    "BOGUS" ∉ riskLevels := by
  have hp : strptimeYmd "2026-10-12" = some ⟨2026, 10, 12, 0⟩ := by decide
  have hnow : overflowEnv.now = ⟨2026, 10, 12, 999⟩ := rfl
  have hnd : overflowEnv.nowDateStr = "2026-10-12" := rfl
  have hlt : PyDateTime.lt ⟨2026, 10, 12, 999⟩ ⟨2026, 10, 12, 0⟩ = false := by
    decide
  have h1 : ((11.34 : Rat) != 0) = true := bne_iff_ne.mpr (by norm_num)
  have h2 : ((10.50 : Rat) != 0) = true := bne_iff_ne.mpr (by norm_num)
  have h4 : ¬((0.92 : Rat) < 0.5) := by norm_num
  have h5 : ¬((11.34 : Rat) < 0) := by norm_num
  have hval : validationErrorsOf overflowEnv.now
      (mock_extracted_data overflowEnv) = [] := by
    simp [validationErrorsOf, mock_extracted_data, pyStrTruthy, pyRatTruthy,
      pyListTruthy, hp, hnow, hnd, hlt, h1, h2, h4, h5]
    norm_num
  have hfe : overflowEnv.fileExists = true := rfl
  have hloe : overflowEnv.loadError = none := rfl
  have hb64 : overflowEnv.imageBase64 = "aW1n" := rfl
  have hfr : overflowEnv.fraudResp = .returned (some overflowFA) := rfl
  have hsc : overflowFA.score = 150 := rfl
  have hfs : (runPipeline overflowEnv "r1" "img.png" "rep1").fraud_score =
      150 := by
    simp [runPipeline, create_initial_state, applyUpdate, load_image_node,
      extract_data_node, validate_data_node, route_after_extraction,
      route_after_validation, route_after_fraud_check, fraud_check_node,
      flag_fraud_node, pyStrTruthy, hval, hfe, hloe, hb64, hfr, hsc]
  have hfa : (runPipeline overflowEnv "r1" "img.png" "rep1").fraud_analysis =
      some overflowFA := by
    simp [runPipeline, create_initial_state, applyUpdate, load_image_node,
      extract_data_node, validate_data_node, route_after_extraction,
      route_after_validation, route_after_fraud_check, fraud_check_node,
      flag_fraud_node, pyStrTruthy, hval, hfe, hloe, hb64, hfr, hsc]
  refine ⟨hfs, ?_, hfa, by decide⟩
  rw [hfs]; decide

end ReceiptAgent
